import Mathlib

/-!
Verification of the planar-mirror sample (`samples/rendertarget.cpp`).

The sample derives, every frame, a "reflected" offscreen camera from the main
camera and a fixed mirror quad, renders the scene from that camera into a
1024x1024 offscreen texture, and samples that texture on the quad.

We embed the arithmetic of the sample shallowly: `float3` becomes a record of
three real numbers, the `filament::math` helpers (`dot`, `cross`, `distance`,
`normalize`) become the corresponding real-valued functions, and the per-frame
`animate` lambda becomes a function from the previous offscreen pose and the
current primary pose to the new offscreen pose.  Machine floats are modelled
by exact reals; `x / 0` is Lean's total division (`= 0`) where the C++ float
division would produce an infinity or a NaN, a divergence noted where it
matters.  The setup/cleanup resource traffic is embedded as plain lists of
resource tags in program order.
-/

namespace Rendertarget

noncomputable section

/-- The `float3` vector type of `filament::math`, with exact real components. -/
@[ext] structure Vec3 where
  x : ℝ
  y : ℝ
  z : ℝ

instance : Add Vec3 := ⟨fun a b => ⟨a.x + b.x, a.y + b.y, a.z + b.z⟩⟩

instance : Sub Vec3 := ⟨fun a b => ⟨a.x - b.x, a.y - b.y, a.z - b.z⟩⟩

instance : Neg Vec3 := ⟨fun a => ⟨-a.x, -a.y, -a.z⟩⟩

instance : SMul ℝ Vec3 := ⟨fun t a => ⟨t * a.x, t * a.y, t * a.z⟩⟩

/-- `filament::math::dot` on `float3`. -/
def dot (a b : Vec3) : ℝ := a.x * b.x + a.y * b.y + a.z * b.z

/-- `filament::math::cross` on `float3`. -/
def cross (a b : Vec3) : Vec3 :=
  ⟨a.y * b.z - a.z * b.y, a.z * b.x - a.x * b.z, a.x * b.y - a.y * b.x⟩

/-- Squared Euclidean length of a `float3`. -/
def normSq (a : Vec3) : ℝ := dot a a

/-- `filament::math::length`: the Euclidean length. -/
def length (a : Vec3) : ℝ := Real.sqrt (normSq a)

/-- `filament::math::distance` between two points. -/
def distance (a b : Vec3) : ℝ := length (a - b)

/-- `filament::math::normalize`: division by the length. -/
def normalize (a : Vec3) : Vec3 := (1 / length a) • a

/-- The `reflect` lambda of the `animate` callback
(`rendertarget.cpp:231`-`233`): `I - 2.0 * dot(N, I) * N`. -/
def reflect (I N : Vec3) : Vec3 := I - (2 * dot N I) • N

/-- The `intersectPlane` lambda of the `animate` callback
(`rendertarget.cpp:236`-`239`):
`t = dot(planePt - rayOrigin, planeNormal) / dot(rayDir, planeNormal)`,
returning `rayOrigin + t * rayDir`.  There is no check on the denominator. -/
def intersectPlane (planePt planeNormal rayOrigin rayDir : Vec3) : Vec3 :=
  rayOrigin +
    (dot (planePt - rayOrigin) planeNormal / dot rayDir planeNormal) • rayDir

/-- A camera pose as the sample uses it: position, forward (gaze) vector and
up vector.  The offscreen camera is set by
`lookAt(reflectedEyePos, reflectedEyePos + reflectedGazeVec, reflectedUpVec)`,
so its pose is exactly the triple passed there. -/
@[ext] structure CameraPose where
  eye : Vec3
  forward : Vec3
  up : Vec3

/-- The mirror-camera derivation of the `animate` callback
(`rendertarget.cpp:242`-`249`): intersect the gaze ray with the quad plane,
reflect gaze and up across the quad normal, and place the reflected eye at
`quadPoint - distance(quadPoint, eyePos) * reflectedGazeVec`. -/
def mirrorCamera (quadCenter quadNormal : Vec3) (cam : CameraPose) : CameraPose :=
  let quadPoint := intersectPlane quadCenter quadNormal cam.eye cam.forward
  let reflectedGazeVec := reflect cam.forward quadNormal
  let reflectedEyePos := quadPoint - distance quadPoint cam.eye • reflectedGazeVec
  let reflectedUpVec := reflect cam.up quadNormal
  ⟨reflectedEyePos, reflectedGazeVec, reflectedUpVec⟩

/-- `app.quadCenter` (`rendertarget.cpp:114`). -/
def quadCenter : Vec3 := ⟨-2, 0, -5⟩

/-- `app.quadNormal = normalize(float3{1, 0, 2})` (`rendertarget.cpp:115`). -/
def quadNormal : Vec3 := normalize ⟨1, 0, 2⟩

/-- One step of the `animate` callback, viewed as a state transformer on the
offscreen camera pose: the callback recomputes the mirrored pose from the
current primary pose and unconditionally calls `lookAt` on the offscreen
camera, so the previous offscreen pose `prev` is overwritten, never read. -/
def animateStep (prev cam : CameraPose) : CameraPose :=
  mirrorCamera quadCenter quadNormal cam

/-- The in-plane unit direction `u = normalize(cross(app.quadNormal, float3(0, 1, 0)))`
(`rendertarget.cpp:116`). -/
def quadU : Vec3 := normalize (cross quadNormal ⟨0, 1, 0⟩)

/-- The in-plane unit direction `v = cross(n, u)` (`rendertarget.cpp:117`). -/
def quadV : Vec3 := cross quadNormal quadU

/-- `app.quadExtents[0] = 1.5 * u` (`rendertarget.cpp:118`). -/
def quadExtentU : Vec3 := (1.5 : ℝ) • quadU

/-- `app.quadExtents[1] = 1.5 * v` (`rendertarget.cpp:119`). -/
def quadExtentV : Vec3 := (1.5 : ℝ) • quadV

/-- The `Vertex` struct of the sample (`rendertarget.cpp:47`-`50`):
a position and a UV coordinate. -/
structure Vertex where
  position : Vec3
  uv : ℝ × ℝ

/-- `kQuadVertices` after the four position assignments of the setup callback
(`rendertarget.cpp:120`-`124`). -/
def kQuadVertices : List Vertex :=
  [⟨quadCenter - quadExtentU - quadExtentV, (0, 0)⟩,
   ⟨quadCenter + quadExtentU - quadExtentV, (1, 0)⟩,
   ⟨quadCenter - quadExtentU + quadExtentV, (0, 1)⟩,
   ⟨quadCenter + quadExtentU + quadExtentV, (1, 1)⟩]

/-- `kQuadIndices` (`rendertarget.cpp:138`): two triangles. -/
def kQuadIndices : List ℕ := [0, 1, 2, 3, 2, 1]

/-- The parameters the `animate` callback passes to
`offscreenCamera->setLensProjection` (`rendertarget.cpp:251`-`253`). -/
structure LensProjection where
  focalLength : ℝ
  aspect : ℝ
  near : ℝ
  far : ℝ

/-- The per-frame projection update (`rendertarget.cpp:251`-`253`):
`setLensProjection(focalLength, 1.0, 0.1, 100.0)` with the focal length read
from `FilamentApp::getCameraFocalLength()`.  The window's aspect ratio is not
an input. -/
def animateLensProjection (cameraFocalLength : ℝ) : LensProjection :=
  ⟨cameraFocalLength, 1.0, 0.1, 100.0⟩

end

/-- Width of `app.offscreenTexture` and of the offscreen viewport
(`rendertarget.cpp:101`-`109`). -/
def offscreenWidth : ℕ := 1024

/-- Height of `app.offscreenTexture` and of the offscreen viewport
(`rendertarget.cpp:101`-`109`). -/
def offscreenHeight : ℕ := 1024

/-- Tags for the engine-owned resources the `setup` callback creates. -/
inductive Resource where
  | colorGrading
  | cameraEntity
  | offscreenCamera
  | offscreenView
  | offscreenTexture
  | offscreenRenderTarget
  | quadVb
  | quadIb
  | quadMaterial
  | quadMatInstance
  | quadEntity
  | meshMaterial
  | meshMatInstance
  | meshVertexBuffer
  | meshIndexBuffer
  | meshRenderable
  | lightEntity
deriving DecidableEq

/-- The resources created by the `setup` callback in program order
(`rendertarget.cpp:83`-`188`).  The three mesh resources come from the single
`MeshReader::loadMeshFromBuffer` call at line 173; their relative order is
internal to the mesh loader (buffers before the renderable that uses them). -/
def setupCreationOrder : List Resource :=
  [Resource.colorGrading, Resource.cameraEntity, Resource.offscreenCamera,
   Resource.offscreenView, Resource.offscreenTexture, Resource.offscreenRenderTarget,
   Resource.quadVb, Resource.quadIb, Resource.quadMaterial, Resource.quadMatInstance,
   Resource.quadEntity, Resource.meshMaterial, Resource.meshMatInstance,
   Resource.meshVertexBuffer, Resource.meshIndexBuffer, Resource.meshRenderable,
   Resource.lightEntity]

/-- The `engine->destroy` calls of the `cleanup` callback in program order
(`rendertarget.cpp:191`-`206`). -/
def cleanupDestroyOrder : List Resource :=
  [Resource.lightEntity, Resource.quadEntity, Resource.meshMatInstance,
   Resource.meshMaterial, Resource.meshRenderable, Resource.meshVertexBuffer,
   Resource.meshIndexBuffer, Resource.offscreenTexture, Resource.offscreenRenderTarget,
   Resource.offscreenView, Resource.quadVb, Resource.quadIb,
   Resource.quadMatInstance, Resource.quadMaterial]

/-- View tags for the frame-scheduling model: the sample's single offscreen
view and the main window view. -/
inductive ViewId where
  | offscreen
  | main
deriving DecidableEq

/-- Modelled from the spec: the per-frame render loop of `FilamentApp::run`
is not under `src/` (the sample only registers its view through
`FilamentApp::addOffscreenView`, `rendertarget.cpp:111`); per the spec, the
offscreen pass's render submission happens strictly before the primary pass's
render submission within each frame, so the loop renders every registered
offscreen view before the main view. -/
def frameSubmissionOrder (offscreenViews : List ViewId) (mainView : ViewId) :
    List ViewId :=
  offscreenViews ++ [mainView]

/-- The per-frame submission order for this sample, which registers exactly
one offscreen view. -/
def sampleSubmissionOrder : List ViewId :=
  frameSubmissionOrder [ViewId.offscreen] ViewId.main

-- Component lemmas for the vector operations.

@[simp] theorem add_x (a b : Vec3) : (a + b).x = a.x + b.x := rfl

@[simp] theorem add_y (a b : Vec3) : (a + b).y = a.y + b.y := rfl

@[simp] theorem add_z (a b : Vec3) : (a + b).z = a.z + b.z := rfl

@[simp] theorem sub_x (a b : Vec3) : (a - b).x = a.x - b.x := rfl

@[simp] theorem sub_y (a b : Vec3) : (a - b).y = a.y - b.y := rfl

@[simp] theorem sub_z (a b : Vec3) : (a - b).z = a.z - b.z := rfl

@[simp] theorem smul_x (t : ℝ) (a : Vec3) : (t • a).x = t * a.x := rfl

@[simp] theorem smul_y (t : ℝ) (a : Vec3) : (t • a).y = t * a.y := rfl

@[simp] theorem smul_z (t : ℝ) (a : Vec3) : (t • a).z = t * a.z := rfl

theorem normSq_nonneg (a : Vec3) : 0 ≤ normSq a := by
  simp only [normSq, dot]
  nlinarith [mul_self_nonneg a.x, mul_self_nonneg a.y, mul_self_nonneg a.z]

theorem normSq_eq_one_of_length_eq_one {a : Vec3} (h : length a = 1) :
    normSq a = 1 := by
  calc normSq a = Real.sqrt (normSq a) ^ 2 := (Real.sq_sqrt (normSq_nonneg a)).symm
    _ = 1 := by rw [show Real.sqrt (normSq a) = 1 from h]; norm_num

theorem dot_comm (a b : Vec3) : dot a b = dot b a := by
  simp only [dot]; ring

theorem normSq_smul (t : ℝ) (a : Vec3) : normSq (t • a) = t ^ 2 * normSq a := by
  simp only [normSq, dot, smul_x, smul_y, smul_z]; ring

theorem length_smul (t : ℝ) (a : Vec3) : length (t • a) = |t| * length a := by
  rw [length, normSq_smul, Real.sqrt_mul (sq_nonneg t), Real.sqrt_sq_eq_abs, length]

theorem length_nonneg (a : Vec3) : 0 ≤ length a := Real.sqrt_nonneg _

theorem distance_nonneg (a b : Vec3) : 0 ≤ distance a b := Real.sqrt_nonneg _

theorem sub_sub_cancel_vec (a b : Vec3) : a - (a - b) = b := by
  ext <;> simp

theorem normSq_reflect (v n : Vec3) (h : normSq n = 1) :
    normSq (reflect v n) = normSq v := by
  have hd : n.x * n.x + n.y * n.y + n.z * n.z = 1 := by
    simpa [normSq, dot] using h
  simp only [normSq, reflect, dot, sub_x, sub_y, sub_z, smul_x, smul_y, smul_z]
  linear_combination (4 * (n.x * v.x + n.y * v.y + n.z * v.z) ^ 2) * hd

/-- Claim C3: for every unit vector `n` and every vector `v`, applying the
sample's `reflect` twice returns the original vector (reflection across a
unit normal is an involution). -/
theorem reflect_involution (v n : Vec3) (h : length n = 1) :
    reflect (reflect v n) n = v := by
  have hd : n.x * n.x + n.y * n.y + n.z * n.z = 1 := by
    simpa [normSq, dot] using normSq_eq_one_of_length_eq_one h
  ext
  · simp only [reflect, dot, sub_x, sub_y, sub_z, smul_x, smul_y, smul_z]
    linear_combination (4 * (n.x * v.x + n.y * v.y + n.z * v.z) * n.x) * hd
  · simp only [reflect, dot, sub_x, sub_y, sub_z, smul_x, smul_y, smul_z]
    linear_combination (4 * (n.x * v.x + n.y * v.y + n.z * v.z) * n.y) * hd
  · simp only [reflect, dot, sub_x, sub_y, sub_z, smul_x, smul_y, smul_z]
    linear_combination (4 * (n.x * v.x + n.y * v.y + n.z * v.z) * n.z) * hd

/-- Witness for C3: the unit normal `(0,0,1)` and the vector `(1,2,3)`. -/
theorem reflect_involution_witness :
    length ⟨0, 0, 1⟩ = 1 ∧
      reflect (reflect ⟨1, 2, 3⟩ ⟨0, 0, 1⟩) ⟨0, 0, 1⟩ = (⟨1, 2, 3⟩ : Vec3) :=
  ⟨by norm_num [length, normSq, dot, Real.sqrt_one],
   reflect_involution ⟨1, 2, 3⟩ ⟨0, 0, 1⟩
     (by norm_num [length, normSq, dot, Real.sqrt_one])⟩

/-- Claim C4: for unit `forward`, unit plane normal and a non-degenerate ray
(`dot forward n ≠ 0`), the reflected eye `P - distance(P, eye) * reflForward`
is at the same distance from the intersection point `P` as the original eye. -/
theorem mirror_distance_preserved (c n : Vec3) (cam : CameraPose)
    (hf : length cam.forward = 1) (hn : length n = 1)
    (hd : dot cam.forward n ≠ 0) :
    distance (intersectPlane c n cam.eye cam.forward) (mirrorCamera c n cam).eye
      = distance (intersectPlane c n cam.eye cam.forward) cam.eye := by
  have hm : (mirrorCamera c n cam).eye
      = intersectPlane c n cam.eye cam.forward
        - distance (intersectPlane c n cam.eye cam.forward) cam.eye
          • reflect cam.forward n := rfl
  have h1 : length (reflect cam.forward n) = length cam.forward := by
    unfold length
    rw [normSq_reflect _ _ (normSq_eq_one_of_length_eq_one hn)]
  calc distance (intersectPlane c n cam.eye cam.forward) (mirrorCamera c n cam).eye
      = length (distance (intersectPlane c n cam.eye cam.forward) cam.eye
          • reflect cam.forward n) := by
        rw [hm, distance, sub_sub_cancel_vec]
    _ = distance (intersectPlane c n cam.eye cam.forward) cam.eye := by
        rw [length_smul, h1, hf, mul_one, abs_of_nonneg (distance_nonneg _ _)]

/-- Witness for C4: the concrete scenario of the spec (plane through the
origin with normal `(0,0,1)`, camera at `(0,0,5)` looking along `-z`). -/
theorem mirror_distance_preserved_witness :
    dot ⟨0, 0, -1⟩ ⟨0, 0, 1⟩ ≠ (0 : ℝ) ∧
      distance (intersectPlane ⟨0, 0, 0⟩ ⟨0, 0, 1⟩ ⟨0, 0, 5⟩ ⟨0, 0, -1⟩)
          (mirrorCamera ⟨0, 0, 0⟩ ⟨0, 0, 1⟩ ⟨⟨0, 0, 5⟩, ⟨0, 0, -1⟩, ⟨0, 1, 0⟩⟩).eye
        = distance (intersectPlane ⟨0, 0, 0⟩ ⟨0, 0, 1⟩ ⟨0, 0, 5⟩ ⟨0, 0, -1⟩)
            ⟨0, 0, 5⟩ :=
  ⟨by norm_num [dot],
   mirror_distance_preserved ⟨0, 0, 0⟩ ⟨0, 0, 1⟩ ⟨⟨0, 0, 5⟩, ⟨0, 0, -1⟩, ⟨0, 1, 0⟩⟩
     (by norm_num [length, normSq, dot, Real.sqrt_one])
     (by norm_num [length, normSq, dot, Real.sqrt_one])
     (by norm_num [dot])⟩

/-- Claim C2: the concrete scenario of the spec.  Plane `center=(0,0,0)`,
`normal=(0,0,1)`, primary camera `eye=(0,0,5)`, `forward=(0,0,-1)`,
`up=(0,1,0)`: the intersection point is the origin and the mirrored camera is
`eye=(0,0,-5)`, `forward=(0,0,1)`, `up=(0,1,0)`. -/
theorem concrete_mirror_scenario :
    intersectPlane ⟨0, 0, 0⟩ ⟨0, 0, 1⟩ ⟨0, 0, 5⟩ ⟨0, 0, -1⟩ = (⟨0, 0, 0⟩ : Vec3) ∧
      mirrorCamera ⟨0, 0, 0⟩ ⟨0, 0, 1⟩ ⟨⟨0, 0, 5⟩, ⟨0, 0, -1⟩, ⟨0, 1, 0⟩⟩
        = (⟨⟨0, 0, -5⟩, ⟨0, 0, 1⟩, ⟨0, 1, 0⟩⟩ : CameraPose) := by
  have hP : intersectPlane ⟨0, 0, 0⟩ ⟨0, 0, 1⟩ ⟨0, 0, 5⟩ ⟨0, 0, -1⟩
      = (⟨0, 0, 0⟩ : Vec3) := by
    ext <;> norm_num [intersectPlane, dot]
  have hdist : distance (⟨0, 0, 0⟩ : Vec3) ⟨0, 0, 5⟩ = 5 := by
    have h25 : normSq ((⟨0, 0, 0⟩ : Vec3) - ⟨0, 0, 5⟩) = 25 := by
      norm_num [normSq, dot]
    rw [distance, length, h25, show (25 : ℝ) = 5 ^ 2 by norm_num,
      Real.sqrt_sq (by norm_num : (0 : ℝ) ≤ 5)]
  refine ⟨hP, ?_⟩
  have hmk : mirrorCamera ⟨0, 0, 0⟩ ⟨0, 0, 1⟩ ⟨⟨0, 0, 5⟩, ⟨0, 0, -1⟩, ⟨0, 1, 0⟩⟩
      = ⟨intersectPlane ⟨0, 0, 0⟩ ⟨0, 0, 1⟩ ⟨0, 0, 5⟩ ⟨0, 0, -1⟩
           - distance (intersectPlane ⟨0, 0, 0⟩ ⟨0, 0, 1⟩ ⟨0, 0, 5⟩ ⟨0, 0, -1⟩)
               ⟨0, 0, 5⟩ • reflect ⟨0, 0, -1⟩ ⟨0, 0, 1⟩,
         reflect ⟨0, 0, -1⟩ ⟨0, 0, 1⟩, reflect ⟨0, 1, 0⟩ ⟨0, 0, 1⟩⟩ := rfl
  rw [hmk, hP, hdist]
  ext <;> norm_num [reflect, dot]

/-- The distance from the eye to the ray-plane intersection point, written
through the ray parameter `t`, for a unit direction and nonnegative `t`. -/
theorem distance_intersectPlane (c n eye f : Vec3) (hf : length f = 1)
    (ht : 0 ≤ dot (c - eye) n / dot f n) :
    distance (intersectPlane c n eye f) eye = dot (c - eye) n / dot f n := by
  have h1 : intersectPlane c n eye f - eye = (dot (c - eye) n / dot f n) • f := by
    ext <;>
      simp only [intersectPlane, add_x, add_y, add_z, sub_x, sub_y, sub_z,
        smul_x, smul_y, smul_z] <;>
      ring
  rw [distance, h1, length_smul, hf, mul_one, abs_of_nonneg ht]

/-- Claim C10: for a unit forward vector, a unit plane normal, a
non-degenerate denominator and a nonnegative ray parameter, the reflected eye
computed by the sample equals the point-reflection of the eye across the
mirror plane: `eye - 2*dot(eye - center, normal)*normal`. -/
theorem reflectedEye_eq_point_reflection (c n : Vec3) (cam : CameraPose)
    (hf : length cam.forward = 1) (hn : length n = 1)
    (hd : dot cam.forward n ≠ 0)
    (ht : 0 ≤ dot (c - cam.eye) n / dot cam.forward n) :
    (mirrorCamera c n cam).eye = cam.eye - (2 * dot (cam.eye - c) n) • n := by
  have hm : (mirrorCamera c n cam).eye
      = intersectPlane c n cam.eye cam.forward
        - distance (intersectPlane c n cam.eye cam.forward) cam.eye
          • reflect cam.forward n := rfl
  rw [hm, distance_intersectPlane c n cam.eye cam.forward hf ht]
  have hd' : cam.forward.x * n.x + cam.forward.y * n.y + cam.forward.z * n.z ≠ 0 := by
    simpa [dot] using hd
  ext
  all_goals
    simp only [intersectPlane, reflect, dot, add_x, add_y, add_z, sub_x, sub_y,
      sub_z, smul_x, smul_y, smul_z]
  all_goals field_simp
  all_goals ring

/-- Witness for C10: the spec's concrete scenario, where the ray parameter is
`t = 5 ≥ 0` and the reflected eye `(0,0,-5)` is the point-reflection of
`(0,0,5)` across the plane `z = 0`. -/
theorem reflectedEye_eq_point_reflection_witness :
    dot ⟨0, 0, -1⟩ ⟨0, 0, 1⟩ ≠ (0 : ℝ) ∧
      0 ≤ dot ((⟨0, 0, 0⟩ : Vec3) - ⟨0, 0, 5⟩) ⟨0, 0, 1⟩ / dot ⟨0, 0, -1⟩ ⟨0, 0, 1⟩ ∧
      (mirrorCamera ⟨0, 0, 0⟩ ⟨0, 0, 1⟩ ⟨⟨0, 0, 5⟩, ⟨0, 0, -1⟩, ⟨0, 1, 0⟩⟩).eye
        = (⟨0, 0, 5⟩ : Vec3) - (2 * dot ((⟨0, 0, 5⟩ : Vec3) - ⟨0, 0, 0⟩) ⟨0, 0, 1⟩)
            • ⟨0, 0, 1⟩ :=
  ⟨by norm_num [dot], by norm_num [dot],
   reflectedEye_eq_point_reflection ⟨0, 0, 0⟩ ⟨0, 0, 1⟩
     ⟨⟨0, 0, 5⟩, ⟨0, 0, -1⟩, ⟨0, 1, 0⟩⟩
     (by norm_num [length, normSq, dot, Real.sqrt_one])
     (by norm_num [length, normSq, dot, Real.sqrt_one])
     (by norm_num [dot])
     (by norm_num [dot])⟩

/-- Claim C9: the per-frame mirror-camera derivation is a pure deterministic
function of the current primary pose and the fixed plane: two frames with
equal primary eye, forward and up vectors produce equal reflected poses, with
no dependence on the previous offscreen pose. -/
theorem mirror_pose_deterministic (prev₁ prev₂ cam₁ cam₂ : CameraPose)
    (he : cam₁.eye = cam₂.eye) (hfw : cam₁.forward = cam₂.forward)
    (hu : cam₁.up = cam₂.up) :
    animateStep prev₁ cam₁ = animateStep prev₂ cam₂ := by
  obtain ⟨e₁, f₁, u₁⟩ := cam₁
  obtain ⟨e₂, f₂, u₂⟩ := cam₂
  cases he
  cases hfw
  cases hu
  rfl

/-- Witness for C9: two different previous offscreen poses and one primary
pose give the same reflected pose. -/
theorem mirror_pose_deterministic_witness :
    (⟨⟨0, 0, 5⟩, ⟨0, 0, -1⟩, ⟨0, 1, 0⟩⟩ : CameraPose).eye
        = (⟨⟨0, 0, 5⟩, ⟨0, 0, -1⟩, ⟨0, 1, 0⟩⟩ : CameraPose).eye ∧
      animateStep ⟨⟨0, 0, 0⟩, ⟨0, 0, -1⟩, ⟨0, 1, 0⟩⟩
          ⟨⟨0, 0, 5⟩, ⟨0, 0, -1⟩, ⟨0, 1, 0⟩⟩
        = animateStep ⟨⟨1, 2, 3⟩, ⟨1, 0, 0⟩, ⟨0, 1, 0⟩⟩
            ⟨⟨0, 0, 5⟩, ⟨0, 0, -1⟩, ⟨0, 1, 0⟩⟩ :=
  ⟨rfl,
   mirror_pose_deterministic ⟨⟨0, 0, 0⟩, ⟨0, 0, -1⟩, ⟨0, 1, 0⟩⟩
     ⟨⟨1, 2, 3⟩, ⟨1, 0, 0⟩, ⟨0, 1, 0⟩⟩ ⟨⟨0, 0, 5⟩, ⟨0, 0, -1⟩, ⟨0, 1, 0⟩⟩
     ⟨⟨0, 0, 5⟩, ⟨0, 0, -1⟩, ⟨0, 1, 0⟩⟩ rfl rfl rfl⟩

-- The y component of the quad normal vanishes; used for the degenerate-frame
-- analysis below.
theorem quadNormal_y : quadNormal.y = 0 := by
  simp [quadNormal, normalize]

/-- Counterexample to C1: on a frame whose gaze is exactly parallel to the
mirror plane (`dot(forward, normal) = 0`), the `animate` callback still
overwrites the offscreen camera pose — the new pose differs from the previous
frame's pose, because no degeneracy check exists in the code. -/
theorem degenerate_frame_updates_pose :
    dot ⟨0, 1, 0⟩ quadNormal = 0 ∧
      animateStep ⟨⟨1, 1, 1⟩, ⟨0, 0, -1⟩, ⟨0, 1, 0⟩⟩
          ⟨⟨0, 0, 0⟩, ⟨0, 1, 0⟩, ⟨0, 0, 1⟩⟩
        ≠ ⟨⟨1, 1, 1⟩, ⟨0, 0, -1⟩, ⟨0, 1, 0⟩⟩ := by
  constructor
  · norm_num [dot, quadNormal_y]
  · intro h
    have h2 := congrArg (fun p => p.forward.y) h
    simp only [animateStep, mirrorCamera] at h2
    norm_num [reflect, dot, quadNormal_y] at h2

/-- Claim C1 (amended): the `animate` callback has no degeneracy check; on a
frame with `dot(forward, normal) = 0` it still recomputes the offscreen pose
purely from the current primary pose (in C++ float arithmetic the division by
the zero denominator propagates non-finite values into it), so the result is
independent of the previous offscreen pose — the pose is never held. -/
theorem degenerate_frame_ignores_previous (prev₁ prev₂ cam : CameraPose)
    (h : dot cam.forward quadNormal = 0) :
    animateStep prev₁ cam = animateStep prev₂ cam := rfl

/-- Witness for the amended C1: a gaze parallel to the mirror plane. -/
theorem degenerate_frame_ignores_previous_witness :
    dot (⟨⟨0, 0, 0⟩, ⟨0, 1, 0⟩, ⟨0, 0, 1⟩⟩ : CameraPose).forward quadNormal = 0 ∧
      animateStep ⟨⟨1, 1, 1⟩, ⟨0, 0, -1⟩, ⟨0, 1, 0⟩⟩
          ⟨⟨0, 0, 0⟩, ⟨0, 1, 0⟩, ⟨0, 0, 1⟩⟩
        = animateStep ⟨⟨2, 2, 2⟩, ⟨1, 0, 0⟩, ⟨0, 1, 0⟩⟩
            ⟨⟨0, 0, 0⟩, ⟨0, 1, 0⟩, ⟨0, 0, 1⟩⟩ :=
  ⟨by norm_num [dot, quadNormal_y],
   degenerate_frame_ignores_previous ⟨⟨1, 1, 1⟩, ⟨0, 0, -1⟩, ⟨0, 1, 0⟩⟩
     ⟨⟨2, 2, 2⟩, ⟨1, 0, 0⟩, ⟨0, 1, 0⟩⟩ ⟨⟨0, 0, 0⟩, ⟨0, 1, 0⟩, ⟨0, 0, 1⟩⟩
     (by norm_num [dot, quadNormal_y])⟩

/-- Claim C7: every frame the offscreen camera's projection is set with the
aspect ratio of the 1024x1024 offscreen target (`1.0`, independent of the
window, which is not an input of the computation), fixed near/far planes
`0.1`/`100.0`, and the focal length read from the primary camera's current
lens setting. -/
theorem offscreen_projection_fixed (fl : ℝ) :
    (animateLensProjection fl).aspect = (offscreenWidth : ℝ) / (offscreenHeight : ℝ)
      ∧ (animateLensProjection fl).near = 0.1
      ∧ (animateLensProjection fl).far = 100
      ∧ (animateLensProjection fl).focalLength = fl := by
  norm_num [animateLensProjection, offscreenWidth, offscreenHeight]

/-- Counterexample to C6: the color grading object is created by `setup`
(`rendertarget.cpp:83`) but never destroyed by `cleanup`, and the destruction
order of `cleanup` is not the reverse of the creation order (for example the
offscreen texture, created before the quad vertex buffer, is also destroyed
before it). -/
theorem cleanup_not_reverse_of_creation :
    Resource.colorGrading ∈ setupCreationOrder ∧
      Resource.colorGrading ∉ cleanupDestroyOrder ∧
      cleanupDestroyOrder ≠ setupCreationOrder.reverse := by
  decide

/-- Claim C6 (amended): every resource destroyed by `cleanup` was created by
`setup` and is destroyed exactly once, but the color grading object, the
offscreen camera and its entity are never destroyed, and the destruction
order is not the reverse of the creation order. -/
theorem cleanup_release_facts :
    cleanupDestroyOrder.Nodup ∧
      cleanupDestroyOrder.all (fun r => decide (r ∈ setupCreationOrder)) = true ∧
      Resource.colorGrading ∉ cleanupDestroyOrder ∧
      Resource.offscreenCamera ∉ cleanupDestroyOrder ∧
      Resource.cameraEntity ∉ cleanupDestroyOrder ∧
      cleanupDestroyOrder ≠ setupCreationOrder.reverse := by
  decide

/-- Claim C8: within each frame the offscreen pass is submitted strictly
before the primary pass (modelled from the spec's scheduler contract, since
`FilamentApp`'s render loop is not part of the sample source). -/
theorem offscreen_submitted_before_primary :
    sampleSubmissionOrder.indexOf ViewId.offscreen
      < sampleSubmissionOrder.indexOf ViewId.main := by
  decide

-- Evaluation of the quad-extent vectors set up at `rendertarget.cpp:113`-`119`.

theorem sqrt5_pos : (0 : ℝ) < Real.sqrt 5 := Real.sqrt_pos.mpr (by norm_num)

theorem sq_sqrt5 : Real.sqrt 5 ^ 2 = 5 := Real.sq_sqrt (by norm_num)

theorem length_onetwozero : length (⟨1, 0, 2⟩ : Vec3) = Real.sqrt 5 := by
  norm_num [length, normSq, dot]

theorem quadNormal_eq : quadNormal = ⟨1 / Real.sqrt 5, 0, 2 / Real.sqrt 5⟩ := by
  rw [quadNormal, normalize, length_onetwozero]
  have h5 : Real.sqrt 5 ≠ 0 := ne_of_gt sqrt5_pos
  ext <;> field_simp

theorem cross_quadNormal_worldUp :
    cross quadNormal ⟨0, 1, 0⟩ = ⟨-(2 / Real.sqrt 5), 0, 1 / Real.sqrt 5⟩ := by
  rw [quadNormal_eq]
  ext <;> norm_num [cross]

theorem normSq_crossU :
    normSq (⟨-(2 / Real.sqrt 5), 0, 1 / Real.sqrt 5⟩ : Vec3) = 1 := by
  have h5 : Real.sqrt 5 ≠ 0 := ne_of_gt sqrt5_pos
  simp only [normSq, dot]
  field_simp
  norm_num

theorem quadU_eq : quadU = ⟨-(2 / Real.sqrt 5), 0, 1 / Real.sqrt 5⟩ := by
  rw [quadU, cross_quadNormal_worldUp, normalize, length, normSq_crossU,
    Real.sqrt_one]
  ext <;> norm_num

theorem quadU_length : length quadU = 1 := by
  rw [quadU_eq, length, normSq_crossU, Real.sqrt_one]

theorem quadV_eq : quadV = ⟨0, -1, 0⟩ := by
  have h5 : Real.sqrt 5 ≠ 0 := ne_of_gt sqrt5_pos
  rw [quadV, quadU_eq, quadNormal_eq]
  ext
  · norm_num [cross]
  · simp only [cross]
    field_simp
    norm_num
  · norm_num [cross]

theorem quadV_length : length quadV = 1 := by
  rw [quadV_eq]
  norm_num [length, normSq, dot, Real.sqrt_one]

theorem quadExtentU_length : length quadExtentU = 1.5 := by
  rw [quadExtentU, length_smul, quadU_length, mul_one,
    abs_of_nonneg (by norm_num : (0 : ℝ) ≤ 1.5)]

theorem quadExtentV_length : length quadExtentV = 1.5 := by
  rw [quadExtentV, length_smul, quadV_length, mul_one,
    abs_of_nonneg (by norm_num : (0 : ℝ) ≤ 1.5)]

/-- Claim C5: the composite mirror quad is built once at setup with exactly
four vertices whose positions are `center ± extentU ± extentV` for
`center = (-2,0,-5)` and extent vectors of length 1.5, with UV corners
spanning (0,0)-(1,1), and six indices forming the two triangles `(0,1,2)` and
`(3,2,1)`. -/
theorem quad_construction :
    kQuadVertices.length = 4 ∧
      quadCenter = (⟨-2, 0, -5⟩ : Vec3) ∧
      kQuadVertices.map Vertex.position
        = [quadCenter - quadExtentU - quadExtentV,
           quadCenter + quadExtentU - quadExtentV,
           quadCenter - quadExtentU + quadExtentV,
           quadCenter + quadExtentU + quadExtentV] ∧
      length quadExtentU = 1.5 ∧ length quadExtentV = 1.5 ∧
      kQuadVertices.map Vertex.uv = [(0, 0), (1, 0), (0, 1), (1, 1)] ∧
      kQuadIndices = [0, 1, 2] ++ [3, 2, 1] ∧
      kQuadIndices.length = 6 ∧
      kQuadIndices.all (fun i => decide (i < 4)) = true :=
  ⟨rfl, rfl, rfl, quadExtentU_length, quadExtentV_length, rfl, rfl, rfl,
   by decide⟩

end Rendertarget
